import Mathlib

/-!
Shallow embedding of `src/salt/states/win_servermanager.py` (the Feature
Convergence State module).  The module defines two state functions,
`installed(name, recurse, force)` and `removed(name)`, which consult
collaborators injected through the `__salt__` table
(`win_servermanager.list_installed`, `win_servermanager.install`,
`win_servermanager.remove`) and the dry-run flag `__opts__['test']`.

The embedding models the collaborators as an `Env` of pure oracles and
threads an explicit `World` that logs every collaborator call, so that
"exactly one mutating call" style properties are statements about the log.
Python exceptions are modelled with `Except PyErr`: the module body contains
two expressions that raise at run time on mutation paths —
`ret['changes']['feature']` while `ret['changes']` is still the empty dict
(KeyError), and `salt.utils.compare_dicts(old, new)` where the global name
`salt` is unbound because the module has no import statements (NameError).
-/

namespace WinServerManager

/-- A status snapshot: a mapping from feature identifier to metadata,
as returned by `win_servermanager.list_installed`.  Only key membership
(`name in old`) is inspected by the module. -/
abbrev FeatureStatus := List (String × String)

/-- Python `name in old` on a dict: key membership. -/
def keyMem (name : String) (st : FeatureStatus) : Bool :=
  st.any (fun p => p.1 == name)

/-- The operation result record returned by the install / remove mutators,
with the fields the module reads: `Success`, `DisplayName`, `ExitCode`. -/
structure OperationResult where
  Success : Bool
  DisplayName : String
  ExitCode : Int
  deriving Repr, DecidableEq

/-- The possible values of `ret['changes']` that the module actually
constructs: the mapping starts empty and is possibly set to
`{'feature': status}`.  The diff value of `salt.utils.compare_dicts` is
never constructed because the name `salt` does not resolve. -/
inductive Changes where
  | empty : Changes
  | feature : OperationResult → Changes
  deriving Repr, DecidableEq

/-- The convergence report `ret` built and returned by a state function:
`{'name': ..., 'result': ..., 'changes': ..., 'comment': ...}`.
Python's tri-state `True / False / None` result is `Option Bool`,
with `none` standing for `None` (unknown). -/
structure Report where
  name : String
  result : Option Bool
  changes : Changes
  comment : String
  deriving Repr, DecidableEq

/-- Python run-time errors raised by the module body. -/
inductive PyErr where
  | nameError : String → PyErr
  | keyError : String → PyErr
  deriving Repr, DecidableEq

/-- The collaborator capability set: the dry-run flag `__opts__['test']`
and the three `__salt__` functions the module calls.  `listInstalled k`
is the snapshot returned by the k-th call to
`win_servermanager.list_installed` (snapshots may differ across calls
because the external machine state changes under mutation). -/
structure Env where
  test : Bool
  listInstalled : Nat → FeatureStatus
  installFn : String → Bool → OperationResult
  removeFn : String → OperationResult

/-- The call log threaded through an invocation: how many
`list_installed` reads have happened, and the arguments of every call to
the install and remove mutators. -/
structure World where
  listCalls : Nat
  installCalls : List (String × Bool)
  removeCalls : List String
  deriving Repr, DecidableEq

/-- Python `str(bool)` as used by `'{0}'.format(recurse)`. -/
def pyBool (b : Bool) : String := if b then "True" else "False"

/-- Bool test that `pre` is a prefix of `l` (character lists). -/
def hasPre : List Char → List Char → Bool
  | [], _ => true
  | _ :: _, [] => false
  | a :: as, b :: bs => a == b && hasPre as bs

/-- Bool test that `needle` occurs as a contiguous run inside `l`. -/
def hasSub (needle : List Char) : List Char → Bool
  | [] => needle.isEmpty
  | c :: cs => hasPre needle (c :: cs) || hasSub needle cs

/-- Python `needle in hay` on strings: substring containment. -/
def strContains (hay needle : String) : Bool :=
  hasSub needle.toList hay.toList

/-- Continuation of `installed` after the status check decided that a
mutation is wanted (lines 61-77 of the source): the dry-run gate, the
single call to `win_servermanager.install`, the failure-comment line that
reads `ret['changes']['feature']` while `changes` is still empty
(KeyError), the conditional `changes['feature'] = status` assignment, the
second status read, and the diff line `salt.utils.compare_dicts(old, new)`
whose global name `salt` is unbound in this module (NameError). -/
def installedBody (env : Env) (w : World) (ret : Report) (name : String)
    (recurse : Bool) (_old : FeatureStatus) : Except PyErr Report × World :=
  if env.test then
    (Except.ok { ret with result := none }, w)
  else
    let status := env.installFn name recurse
    let w := { w with installCalls := w.installCalls ++ [(name, recurse)] }
    let ret := { ret with result := some status.Success }
    if !status.Success then
      (Except.error (PyErr.keyError "feature"), w)
    else
      let ret := if !(strContains status.DisplayName "already installed") then
                   { ret with changes := Changes.feature status }
                 else ret
      let _new := env.listInstalled w.listCalls
      let w := { w with listCalls := w.listCalls + 1 }
      (Except.error (PyErr.nameError "salt"), w)

/-- `installed(name, recurse=False, force=False)` of
`salt/states/win_servermanager.py`. -/
def installed (env : Env) (w : World) (name : String)
    (recurse : Bool := false) (force : Bool := false) :
    Except PyErr Report × World :=
  let ret : Report :=
    { name := name, result := some true, changes := Changes.empty, comment := "" }
  let old := env.listInstalled w.listCalls
  let w := { w with listCalls := w.listCalls + 1 }
  if !(keyMem name old) then
    installedBody env w
      { ret with comment := s!"{name} will be installed recurse={pyBool recurse}" }
      name recurse old
  else if force && recurse then
    installedBody env w
      { ret with comment := s!"{name} already installed but might install sub-features" }
      name recurse old
  else
    (Except.ok { ret with comment := s!"The feature {name} is already installed" }, w)

/-- `removed(name)` of `salt/states/win_servermanager.py`.  Note that
unlike `installed` it never assigns `changes['feature']`; its failure
comment line reads `ret['changes']['feature']['ExitCode']` on the empty
mapping (KeyError), and its diff line raises the same NameError. -/
def removed (env : Env) (w : World) (name : String) :
    Except PyErr Report × World :=
  let ret : Report :=
    { name := name, result := some true, changes := Changes.empty, comment := "" }
  let old := env.listInstalled w.listCalls
  let w := { w with listCalls := w.listCalls + 1 }
  if keyMem name old then
    let ret := { ret with comment := s!"{name} will be removed" }
    if env.test then
      (Except.ok { ret with result := none }, w)
    else
      let status := env.removeFn name
      let w := { w with removeCalls := w.removeCalls ++ [name] }
      let ret := { ret with result := some status.Success }
      if !status.Success then
        (Except.error (PyErr.keyError "feature"), w)
      else
        let _new := env.listInstalled w.listCalls
        let w := { w with listCalls := w.listCalls + 1 }
        (Except.error (PyErr.nameError "salt"), w)
  else
    (Except.ok { ret with comment := s!"The feature {name} is not installed" }, w)

/-- The initial, empty call log. -/
def w0 : World := { listCalls := 0, installCalls := [], removeCalls := [] }

/-- A successful install / remove operation result with a display name that
does not contain "already installed". -/
def okResult : OperationResult :=
  { Success := true, DisplayName := "Web Server (IIS)", ExitCode := 0 }

/-- A failed operation result carrying the installer exit code 1603. -/
def failResult : OperationResult :=
  { Success := false, DisplayName := "Telnet Client", ExitCode := 1603 }

/-- Collaborators: "Web-Server" always present, mutators succeed. -/
def envA : Env :=
  { test := false,
    listInstalled := fun _ => [("Web-Server", "Installed")],
    installFn := fun _ _ => okResult,
    removeFn := fun _ => okResult }

/-- Collaborators: first snapshot empty, later snapshots contain
"Web-Server"; mutators succeed. -/
def envB : Env :=
  { test := false,
    listInstalled := fun k => if k == 0 then [] else [("Web-Server", "Installed")],
    installFn := fun _ _ => okResult,
    removeFn := fun _ => okResult }

/-- Collaborators: snapshots always empty, mutators fail with exit code 1603. -/
def envF : Env :=
  { test := false,
    listInstalled := fun _ => [],
    installFn := fun _ _ => failResult,
    removeFn := fun _ => failResult }

/-- Collaborators: "Print-Server" always present, mutators fail with exit
code 1603. -/
def envFP : Env :=
  { test := false,
    listInstalled := fun _ => [("Print-Server", "Installed")],
    installFn := fun _ _ => failResult,
    removeFn := fun _ => failResult }

/-- Dry-run collaborators (`__opts__['test'] = True`), snapshots empty. -/
def envT : Env :=
  { test := true,
    listInstalled := fun _ => [],
    installFn := fun _ _ => okResult,
    removeFn := fun _ => okResult }

/-- Dry-run collaborators, "Web-Server" always present. -/
def envTP : Env :=
  { test := true,
    listInstalled := fun _ => [("Web-Server", "Installed")],
    installFn := fun _ _ => okResult,
    removeFn := fun _ => okResult }

/-- Collaborators: "Web-Server" always present; the install mutator
succeeds with a display name that does contain "already installed", so the
step-7 `changes['feature']` assignment is skipped. -/
def envAI : Env :=
  { test := false,
    listInstalled := fun _ => [("Web-Server", "Installed")],
    installFn := fun _ _ =>
      { Success := true, DisplayName := "Web-Server is already installed", ExitCode := 0 },
    removeFn := fun _ => okResult }

/-- When the feature is already present and not (force and recurse),
`installed` takes the short-circuit branch: it returns the
already-installed report and only records the single status read. -/
theorem installed_short_circuit (env : Env) (w : World) (name : String)
    (recurse force : Bool)
    (hmem : keyMem name (env.listInstalled w.listCalls) = true)
    (hfr : (force && recurse) = false) :
    installed env w name recurse force =
      (Except.ok { name := name, result := some true, changes := Changes.empty,
                   comment := s!"The feature {name} is already installed" },
       { w with listCalls := w.listCalls + 1 }) := by
  unfold installed
  simp [hmem, hfr]

/-- Exact characterization of the install-mutator log after `installed`:
one call is appended exactly when the status check requests a mutation and
the dry-run flag is off. -/
theorem installed_installCalls (env : Env) (w : World) (name : String)
    (recurse force : Bool) :
    (installed env w name recurse force).2.installCalls =
      if ((!(keyMem name (env.listInstalled w.listCalls)) || (force && recurse))
            && !env.test) = true
      then w.installCalls ++ [(name, recurse)] else w.installCalls := by
  unfold installed installedBody
  cases hk : keyMem name (env.listInstalled w.listCalls) <;>
    cases ht : env.test <;>
      cases hfr : force && recurse <;>
        cases hs : (env.installFn name recurse).Success <;>
          simp [hk, ht, hfr, hs]

/-- `installed` never calls the remove mutator. -/
theorem installed_removeCalls (env : Env) (w : World) (name : String)
    (recurse force : Bool) :
    (installed env w name recurse force).2.removeCalls = w.removeCalls := by
  unfold installed installedBody
  cases hk : keyMem name (env.listInstalled w.listCalls) <;>
    cases ht : env.test <;>
      cases hfr : force && recurse <;>
        cases hs : (env.installFn name recurse).Success <;>
          simp [hk, ht, hfr, hs]

/-- Exact characterization of the remove-mutator log after `removed`. -/
theorem removed_removeCalls (env : Env) (w : World) (name : String) :
    (removed env w name).2.removeCalls =
      if (keyMem name (env.listInstalled w.listCalls) && !env.test) = true
      then w.removeCalls ++ [name] else w.removeCalls := by
  unfold removed
  cases hk : keyMem name (env.listInstalled w.listCalls) <;>
    cases ht : env.test <;>
      cases hs : (env.removeFn name).Success <;>
        simp [hk, ht, hs]

/-- `removed` never calls the install mutator. -/
theorem removed_installCalls (env : Env) (w : World) (name : String) :
    (removed env w name).2.installCalls = w.installCalls := by
  unfold removed
  cases hk : keyMem name (env.listInstalled w.listCalls) <;>
    cases ht : env.test <;>
      cases hs : (env.removeFn name).Success <;>
        simp [hk, ht, hs]

/-- Claim C5: for every name present in the before snapshot with not
(force and recurse), `installed(name, recurse, force)` returns result=true,
changes={}, and a comment stating the feature is already installed, making
zero calls to any mutating collaborator. -/
theorem claim5_already_installed_short_circuit (env : Env) (w : World)
    (name : String) (recurse force : Bool)
    (hmem : keyMem name (env.listInstalled w.listCalls) = true)
    (hfr : (force && recurse) = false) :
    (installed env w name recurse force).1 =
      Except.ok { name := name, result := some true, changes := Changes.empty,
                  comment := s!"The feature {name} is already installed" } ∧
    (installed env w name recurse force).2.installCalls = w.installCalls ∧
    (installed env w name recurse force).2.removeCalls = w.removeCalls := by
  rw [installed_short_circuit env w name recurse force hmem hfr]
  exact ⟨rfl, rfl, rfl⟩

/-- Witness for C5: "Web-Server" present in the snapshot, recurse=force=false. -/
theorem claim5_witness :
    (installed envA w0 "Web-Server" false false).1 =
      Except.ok { name := "Web-Server", result := some true, changes := Changes.empty,
                  comment := "The feature Web-Server is already installed" } ∧
    (installed envA w0 "Web-Server" false false).2.installCalls = w0.installCalls ∧
    (installed envA w0 "Web-Server" false false).2.removeCalls = w0.removeCalls :=
  claim5_already_installed_short_circuit envA w0 "Web-Server" false false rfl rfl

/-- Claim C6: for every name not present in the installed-features
snapshot, `removed(name)` returns a report with result=true and makes zero
calls to the remove mutator (and none to the install mutator either). -/
theorem claim6_removed_absent_noop (env : Env) (w : World) (name : String)
    (habs : keyMem name (env.listInstalled w.listCalls) = false) :
    (removed env w name).1 =
      Except.ok { name := name, result := some true, changes := Changes.empty,
                  comment := s!"The feature {name} is not installed" } ∧
    (removed env w name).2.removeCalls = w.removeCalls ∧
    (removed env w name).2.installCalls = w.installCalls := by
  unfold removed
  simp [habs]

/-- Witness for C6: "Web-Server" absent from the (empty) snapshot. -/
theorem claim6_witness :
    (removed envF w0 "Web-Server").1 =
      Except.ok { name := "Web-Server", result := some true, changes := Changes.empty,
                  comment := "The feature Web-Server is not installed" } ∧
    (removed envF w0 "Web-Server").2.removeCalls = w0.removeCalls ∧
    (removed envF w0 "Web-Server").2.installCalls = w0.installCalls :=
  claim6_removed_absent_noop envF w0 "Web-Server" rfl

/-- Claim C10: if a first `installed(name, false, false)` call returns
successfully with result=true, and the status reader's next snapshot (the
one the second call reads) includes the name, then a second identical call
takes the already-satisfied short-circuit: result=true, empty changes, no
mutating call. -/
theorem claim10_installed_idempotent (env : Env) (w : World) (name : String)
    (r1 : Report)
    (h1 : (installed env w name false false).1 = Except.ok r1)
    (h1r : r1.result = some true)
    (hmem : keyMem name
      (env.listInstalled (installed env w name false false).2.listCalls) = true) :
    (installed env (installed env w name false false).2 name false false).1 =
      Except.ok { name := name, result := some true, changes := Changes.empty,
                  comment := s!"The feature {name} is already installed" } ∧
    (installed env (installed env w name false false).2 name false false).2.installCalls =
      (installed env w name false false).2.installCalls ∧
    (installed env (installed env w name false false).2 name false false).2.removeCalls =
      (installed env w name false false).2.removeCalls := by
  rw [installed_short_circuit env (installed env w name false false).2 name false false
    hmem rfl]
  exact ⟨rfl, rfl, rfl⟩

/-- Witness for C10: with "Web-Server" present in every snapshot the first
call succeeds with result=true and the second call short-circuits. -/
theorem claim10_witness :
    (installed envA (installed envA w0 "Web-Server" false false).2 "Web-Server" false false).1 =
      Except.ok { name := "Web-Server", result := some true, changes := Changes.empty,
                  comment := "The feature Web-Server is already installed" } ∧
    (installed envA (installed envA w0 "Web-Server" false false).2 "Web-Server" false false).2.installCalls =
      (installed envA w0 "Web-Server" false false).2.installCalls ∧
    (installed envA (installed envA w0 "Web-Server" false false).2 "Web-Server" false false).2.removeCalls =
      (installed envA w0 "Web-Server" false false).2.removeCalls :=
  claim10_installed_idempotent envA w0 "Web-Server"
    { name := "Web-Server", result := some true, changes := Changes.empty,
      comment := "The feature Web-Server is already installed" }
    rfl rfl rfl

/-- Claim C7: whenever divergence is detected and the dry-run flag
(`__opts__['test']`) is set, `installed` and `removed` return immediately
with result=None (unknown), zero mutating calls, and `changes` left as the
placeholder empty mapping rather than a diff. -/
theorem claim7_dry_run_unknown (env : Env) (w : World) (name : String)
    (recurse force : Bool) (htest : env.test = true) :
    (keyMem name (env.listInstalled w.listCalls) = false →
      (installed env w name recurse force).1 =
        Except.ok { name := name, result := none, changes := Changes.empty,
                    comment := s!"{name} will be installed recurse={pyBool recurse}" } ∧
      (installed env w name recurse force).2.installCalls = w.installCalls ∧
      (installed env w name recurse force).2.removeCalls = w.removeCalls) ∧
    (keyMem name (env.listInstalled w.listCalls) = true → (force && recurse) = true →
      (installed env w name recurse force).1 =
        Except.ok { name := name, result := none, changes := Changes.empty,
                    comment := s!"{name} already installed but might install sub-features" } ∧
      (installed env w name recurse force).2.installCalls = w.installCalls ∧
      (installed env w name recurse force).2.removeCalls = w.removeCalls) ∧
    (keyMem name (env.listInstalled w.listCalls) = true →
      (removed env w name).1 =
        Except.ok { name := name, result := none, changes := Changes.empty,
                    comment := s!"{name} will be removed" } ∧
      (removed env w name).2.removeCalls = w.removeCalls ∧
      (removed env w name).2.installCalls = w.installCalls) := by
  refine ⟨fun hk => ?_, fun hk hfr => ?_, fun hk => ?_⟩
  · unfold installed installedBody
    simp [hk, htest]
  · unfold installed installedBody
    simp [hk, hfr, htest]
  · unfold removed
    simp [hk, htest]

/-- Witness for C7: dry-run with an absent name for `installed`, and
dry-run with a present name for `removed`. -/
theorem claim7_witness :
    ((installed envT w0 "Web-Server" false false).1 =
      Except.ok { name := "Web-Server", result := none, changes := Changes.empty,
                  comment := "Web-Server will be installed recurse=False" } ∧
     (installed envT w0 "Web-Server" false false).2.installCalls = w0.installCalls ∧
     (installed envT w0 "Web-Server" false false).2.removeCalls = w0.removeCalls) ∧
    ((removed envTP w0 "Web-Server").1 =
      Except.ok { name := "Web-Server", result := none, changes := Changes.empty,
                  comment := "Web-Server will be removed" } ∧
     (removed envTP w0 "Web-Server").2.removeCalls = w0.removeCalls ∧
     (removed envTP w0 "Web-Server").2.installCalls = w0.installCalls) :=
  ⟨(claim7_dry_run_unknown envT w0 "Web-Server" false false rfl).1 rfl,
   (claim7_dry_run_unknown envTP w0 "Web-Server" false false rfl).2.2 rfl⟩

/-- Claim C8: in every invocation of `installed` or `removed` a mutating
collaborator operation is invoked at most once, and only when the before
snapshot disagrees with the desired state (name absent for `installed`,
name present for `removed`) or when force and recurse are both set while
the feature is installed — and never in dry-run mode. -/
theorem claim8_mutation_at_most_once (env : Env) (w : World) (name : String)
    (recurse force : Bool) :
    (((installed env w name recurse force).2.installCalls = w.installCalls ∧
      (installed env w name recurse force).2.removeCalls = w.removeCalls) ∨
     ((installed env w name recurse force).2.installCalls = w.installCalls ++ [(name, recurse)] ∧
      (installed env w name recurse force).2.removeCalls = w.removeCalls ∧
      (keyMem name (env.listInstalled w.listCalls) = false ∨ (force && recurse) = true) ∧
      env.test = false)) ∧
    (((removed env w name).2.removeCalls = w.removeCalls ∧
      (removed env w name).2.installCalls = w.installCalls) ∨
     ((removed env w name).2.removeCalls = w.removeCalls ++ [name] ∧
      (removed env w name).2.installCalls = w.installCalls ∧
      keyMem name (env.listInstalled w.listCalls) = true ∧
      env.test = false)) := by
  constructor
  · rw [installed_installCalls, installed_removeCalls]
    cases hk : keyMem name (env.listInstalled w.listCalls) with
    | false =>
      cases ht : env.test with
      | true => left; simp
      | false => right; simp
    | true =>
      cases hfr : force && recurse with
      | false => left; simp
      | true =>
        cases ht : env.test with
        | true => left; simp
        | false => right; simp
  · rw [removed_removeCalls, removed_installCalls]
    cases hk : keyMem name (env.listInstalled w.listCalls) with
    | false => left; simp
    | true =>
      cases ht : env.test with
      | true => left; simp
      | false => right; simp

/-- Counterexample to claim C4 as stated: this invocation of `installed`
performs a mutation (exactly one install call) but does not reach the diff
step and does not fail with a name-resolution error — the mutator reports
success=false, so the failure-comment line raises a key-lookup error first
(only one status read is ever made: `listCalls` stays 1). -/
theorem claim4_counterexample :
    (installed envF w0 "SNMP-Service" false false).2 =
      { listCalls := 1, installCalls := [("SNMP-Service", false)], removeCalls := [] } ∧
    (installed envF w0 "SNMP-Service" false false).1 =
      Except.error (PyErr.keyError "feature") ∧
    PyErr.keyError "feature" ≠ PyErr.nameError "salt" :=
  ⟨rfl, rfl, by decide⟩

/-- Claim C4 (amended): every invocation of `installed` or `removed` that
performs a mutation fails with an exception instead of returning a report:
when the mutator reports success=true it reaches the diff step and fails
with a name-resolution error on the unresolved global `salt`; when the
mutator reports success=false it fails before the diff step, with a
key-lookup error in the failure-comment path. -/
theorem claim4_mutation_never_returns (env : Env) (w : World) (name : String)
    (recurse force : Bool) :
    ((installed env w name recurse force).2.installCalls ≠ w.installCalls →
      (installed env w name recurse force).1 =
        Except.error (if (env.installFn name recurse).Success
                      then PyErr.nameError "salt" else PyErr.keyError "feature")) ∧
    ((removed env w name).2.removeCalls ≠ w.removeCalls →
      (removed env w name).1 =
        Except.error (if (env.removeFn name).Success
                      then PyErr.nameError "salt" else PyErr.keyError "feature")) := by
  constructor
  · intro hne
    cases hk : keyMem name (env.listInstalled w.listCalls) with
    | true =>
      cases hfr : force && recurse with
      | false =>
        exact absurd (by rw [installed_installCalls]; simp [hk, hfr]) hne
      | true =>
        cases ht : env.test with
        | true =>
          exact absurd (by rw [installed_installCalls]; simp [ht]) hne
        | false =>
          cases hs : (env.installFn name recurse).Success <;>
            (unfold installed installedBody; simp [hk, hfr, ht, hs])
    | false =>
      cases ht : env.test with
      | true =>
        exact absurd (by rw [installed_installCalls]; simp [ht]) hne
      | false =>
        cases hs : (env.installFn name recurse).Success <;>
          (unfold installed installedBody; simp [hk, ht, hs])
  · intro hne
    cases hk : keyMem name (env.listInstalled w.listCalls) with
    | false =>
      exact absurd (by rw [removed_removeCalls]; simp [hk]) hne
    | true =>
      cases ht : env.test with
      | true =>
        exact absurd (by rw [removed_removeCalls]; simp [ht]) hne
      | false =>
        cases hs : (env.removeFn name).Success <;>
          (unfold removed; simp [hk, ht, hs])

/-- Witness for amended C4: a success=false install mutation and a
success=true remove mutation, both performing one mutating call and both
ending in the predicted exception. -/
theorem claim4_witness :
    (installed envF w0 "IIS-Hostable-Web-Core" false false).1 =
      Except.error (if (envF.installFn "IIS-Hostable-Web-Core" false).Success
                    then PyErr.nameError "salt" else PyErr.keyError "feature") ∧
    (removed envA w0 "Web-Server").1 =
      Except.error (if (envA.removeFn "Web-Server").Success
                    then PyErr.nameError "salt" else PyErr.keyError "feature") :=
  ⟨(claim4_mutation_never_returns envF w0 "IIS-Hostable-Web-Core" false false).1 (by decide),
   (claim4_mutation_never_returns envA w0 "Web-Server" false false).2 (by decide)⟩

/-- Claim C1, code evaluated at the failing input: with "Web-Server" absent
from the before snapshot, dry-run off and the install mutator reporting
success=true, `installed` performs exactly one install call and reads the
after snapshot, but then raises NameError on the unbound global `salt` at
the diff line `ret['changes'] = salt.utils.compare_dicts(old, new)` instead
of returning the report with result=true and changes=diff(before, after)
that the claim describes. -/
theorem claim1_code_eval :
    installed envB w0 "Web-Server" false false =
      (Except.error (PyErr.nameError "salt"),
       { listCalls := 2, installCalls := [("Web-Server", false)], removeCalls := [] }) :=
  rfl

/-- Claim C2, code evaluated at the failing input: with the name absent
(for `installed`) or present (for `removed`), dry-run off and the mutator
reporting success=false with exit code 1603, each function performs exactly
one mutating call but raises KeyError at the failure-comment line — it
reads `ret['changes']['feature']` while `ret['changes']` is still the empty
mapping — instead of returning result=false with the exit code in the
comment. -/
theorem claim2_code_eval :
    installed envF w0 "Telnet-Client" false false =
      (Except.error (PyErr.keyError "feature"),
       { listCalls := 1, installCalls := [("Telnet-Client", false)], removeCalls := [] }) ∧
    removed envFP w0 "Print-Server" =
      (Except.error (PyErr.keyError "feature"),
       { listCalls := 1, installCalls := [], removeCalls := ["Print-Server"] }) :=
  ⟨rfl, rfl⟩

/-- Claim C3, code evaluated at failing inputs: exceptions do escape the
component boundary on every mutation path — NameError on the unresolved
global `salt` when the mutator succeeds, KeyError on the empty `changes`
mapping when it fails — for `installed` and `removed` alike, contradicting
the claim that failures are surfaced only through the report. -/
theorem claim3_code_eval :
    (installed envB w0 "DNS" false false).1 = Except.error (PyErr.nameError "salt") ∧
    (installed envF w0 "DHCP" false false).1 = Except.error (PyErr.keyError "feature") ∧
    (removed envA w0 "Web-Server").1 = Except.error (PyErr.nameError "salt") ∧
    (removed envFP w0 "Print-Server").1 = Except.error (PyErr.keyError "feature") :=
  ⟨rfl, rfl, rfl, rfl⟩

/-- Claim C9, code evaluated at the failing inputs: whenever `installed`
reaches the post-mutation phase with a successful operation — both when
step 7 records the raw operation result under `changes['feature']` (first
conjunct: display name without "already installed") and when it skips it
(second conjunct: display name containing "already installed", reached via
force=recurse=true) — the step-8 diff assignment raises NameError on the
unbound global `salt`, so no final report is produced and `changes` never
ends up equal to diff(before, after). -/
theorem claim9_code_eval :
    installed envB w0 "FTP-Server" false false =
      (Except.error (PyErr.nameError "salt"),
       { listCalls := 2, installCalls := [("FTP-Server", false)], removeCalls := [] }) ∧
    installed envAI w0 "Web-Server" true true =
      (Except.error (PyErr.nameError "salt"),
       { listCalls := 2, installCalls := [("Web-Server", true)], removeCalls := [] }) :=
  ⟨rfl, rfl⟩

end WinServerManager
